import Mathlib

/-!
Shallow embedding of `cmd/umoci/repack.go` (the `repack` orchestrator of
umoci's `repack` command) and proofs about its pipeline.

The external collaborators of `repack` (bundle-metadata reader, the CAS
engine, the mutator, the mtree parser/checker, the layer generator) are
modelled as an oracle environment `Env`: each call site is represented by
the outcome the external call would produce.  The function `repack` below
mirrors the Go control flow of `func repack(ctx *cli.Context) error`
statement by statement: the sequence of external calls it makes is
recorded as a trace of `Event`s (one event per call attempt, plus one
event per deferred `Close` executed on return, in LIFO registration
order), and the CAS tag-reference state is threaded through explicitly as
a `Store`.
-/

/-- Error values are their messages, as produced by the Go error chain. -/
abbrev Err := String

/-- Models `errors.Wrap(err, msg)` from `github.com/pkg/errors`: the message
of the wrapped error is `msg + ": " + err`. -/
def errorsWrap (e : Err) (msg : String) : Err := msg ++ ": " ++ e

/-- Returns `true` when an external call outcome is an error, i.e. the Go
`err != nil` test. -/
def isFailure {α : Type} (r : Except Err α) : Bool :=
  match r with
  | .error _ => true
  | .ok _ => false

/-- OCI content descriptor (`ispec.Descriptor`): media type, digest string
and size.  Only the fields `repack` reads are modelled. -/
structure Descriptor where
  mediaType : String
  digest : String
  size : Int
deriving DecidableEq, Repr

/-- One uid/gid mapping entry (`rspec.IDMapping`). -/
structure IdMapping where
  containerID : Nat
  hostID : Nat
  size : Nat
deriving DecidableEq, Repr

/-- Mapping options stored in the bundle metadata (`umoci.MapOptions`):
uid/gid mappings plus the rootless flag. -/
structure MapOptions where
  uidMappings : List IdMapping
  gidMappings : List IdMapping
  rootless : Bool
deriving DecidableEq, Repr

/-- Bundle metadata (`umoci.UmociMeta`) as read by `ReadBundleMeta`:
version, the descriptor the bundle was unpacked from (`From`, renamed
`fromDescriptor` because `from` is a Lean keyword), and map options. -/
structure UmociMeta where
  version : String
  fromDescriptor : Descriptor
  mapOptions : MapOptions
deriving DecidableEq, Repr

/-- Classification of one detected filesystem change. -/
inductive DiffKind
  | added
  | modified
  | removed
deriving DecidableEq, Repr

/-- One entry of the diff list produced by `mtree.Check`
(`mtree.InodeDelta`), abstracted to the path and its classification. -/
structure DiffEntry where
  path : String
  kind : DiffKind
deriving DecidableEq, Repr

/-- Parsed mtree specification (`mtree.DirectoryHierarchy`), abstracted to
an opaque list of entries; `repack` only passes it through to
`mtree.Check`. -/
structure MtreeSpec where
  entries : List String
deriving DecidableEq, Repr

/-- Image metadata returned by `mutator.Meta`; only the `Author` field is
read by `repack`. -/
structure ImageMeta where
  author : String
deriving DecidableEq, Repr

/-- OCI history record (`ispec.History`) as built by `repack`. -/
structure History where
  author : String
  comment : String
  created : String
  createdBy : String
  emptyLayer : Bool
deriving DecidableEq, Repr

/-- The filesystem evaluator passed to `mtree.Check`: either
`umoci.DefaultFsEval` or `umoci.RootlessFsEval`. -/
inductive FsEval
  | default
  | rootless
deriving DecidableEq, Repr

/-- Value of `ispec.MediaTypeImageManifest`. -/
def MediaTypeImageManifest : String := "application/vnd.oci.image.manifest.v1+json"

/-- Value of `layer.RootfsName`, the rootfs directory name inside the
bundle. -/
def RootfsName : String := "rootfs"

/-- Modelled from the spec: `MtreeKeywords`, the fixed set of tracked mtree
keywords (defined in the repository outside the given source file).  The
spec describes it as a fixed attribute set (type, mode, ownership, size,
content hash, link target); no claim depends on the exact elements, only
on the set being one fixed constant. -/
def MtreeKeywords : List String :=
  ["size", "type", "uid", "gid", "mode", "link", "sha256digest"]

/-- Replaces the leftmost occurrence of `old` by `new` in a character list;
helper for `stringsReplace1`. -/
def replaceFirstAux (old new : List Char) : List Char → List Char
  | [] => if old.isEmpty then new else []
  | c :: cs =>
      if old.isPrefixOf (c :: cs) then new ++ (c :: cs).drop old.length
      else c :: replaceFirstAux old new cs

/-- Models Go `strings.Replace(s, old, new, 1)`: replaces the first
occurrence of `old` in `s` with `new` (and returns `s` unchanged when `old`
does not occur). -/
def stringsReplace1 (s old new : String) : String :=
  ⟨replaceFirstAux old.data new.data s.data⟩

/-- Models Go `filepath.Join(a, b)` for the clean, non-empty path
components `repack` joins: `a + "/" + b`. -/
def filepathJoin (a b : String) : String := a ++ "/" ++ b

/-- One observable step of `repack`: an external call attempt (with the
arguments passed at the call site) or a deferred `Close` executed on
return. -/
inductive Event
  | readBundleMeta
  | casOpen (path : String)
  | mutateNew (base : Descriptor)
  | osOpen (path : String)
  | parseSpec
  | mtreeCheck (path : String) (keywords : List String) (fsEval : FsEval)
  | generateLayer (path : String) (diffs : List DiffEntry)
  | mutatorMeta
  | mutatorAdd (h : History)
  | mutatorCommit
  | deleteReference (tag : String)
  | putReference (tag : String) (d : Descriptor)
  | engineClose
  | fileClose
  | readerClose
deriving DecidableEq, Repr

/-- Oracle environment: the outcome each external call of `repack` would
produce, in source order.  Handles (engine, mutator, file, reader) carry
no data the orchestrator reads, so successful opens are `Unit`. -/
structure Env where
  readBundleMeta : Except Err UmociMeta
  casOpen : Except Err Unit
  mutateNew : Except Err Unit
  osOpen : Except Err Unit
  parseSpec : Except Err MtreeSpec
  mtreeCheck : Except Err (List DiffEntry)
  generateLayer : Except Err Unit
  mutatorMeta : Except Err ImageMeta
  mutatorAdd : Except Err Unit
  mutatorCommit : Except Err Descriptor
  deleteReference : Except Err Unit
  putReference : Except Err Unit

/-- The CLI context as `repack` reads it from `ctx.App.Metadata`:
`"--image-path"`, `"--image-tag"`, `"bundle"`, and the optional
`"--history.*"` override keys (`none` models an absent key).  `now` models
the string `time.Now().Format(igen.ISO8601)`. -/
structure Ctx where
  imagePath : String
  tagName : String
  bundlePath : String
  historyAuthor : Option String
  historyComment : Option String
  historyCreated : Option String
  historyCreatedBy : Option String
  now : String

/-- Observable CAS state: the set of manifest blob digests written by a
successful `Commit`, and the tag-reference map (`getReference` view). -/
structure Store where
  blobs : List String
  refs : String → Option Descriptor

/-- Result of one `repack` run: the returned error (or `ok`), the trace of
external calls made, and the final CAS state. -/
structure RepackResult where
  result : Except Err Unit
  trace : List Event
  store : Store

/-- Shallow embedding of `func repack(ctx *cli.Context) error`
(`cmd/umoci/repack.go`), statement by statement.  Each external call
appends its attempt event to the trace; each `return` appends the deferred
`Close` calls registered so far, in LIFO order.  `DeleteReference` removes
the tag on success, `PutReference` sets it on success; a successful
`Commit` makes the new manifest blob addressable by digest. -/
def repack (ctx : Ctx) (env : Env) (st : Store) : RepackResult :=
  let imagePath := ctx.imagePath
  let tagName := ctx.tagName
  let bundlePath := ctx.bundlePath
  let t1 := [Event.readBundleMeta]
  match env.readBundleMeta with
  | .error e => ⟨.error (errorsWrap e "read umoci.json metadata"), t1, st⟩
  | .ok meta =>
    if meta.fromDescriptor.mediaType ≠ MediaTypeImageManifest then
      ⟨.error (errorsWrap ("descriptor does not point to ispec.MediaTypeImageManifest: not implemented: " ++ meta.fromDescriptor.mediaType) "invalid saved from descriptor"), t1, st⟩
    else
      let t2 := t1 ++ [Event.casOpen imagePath]
      match env.casOpen with
      | .error e => ⟨.error (errorsWrap e "open CAS"), t2, st⟩
      | .ok _ =>
        let t3 := t2 ++ [Event.mutateNew meta.fromDescriptor]
        match env.mutateNew with
        | .error e => ⟨.error (errorsWrap e "create mutator for base image"), t3 ++ [Event.engineClose], st⟩
        | .ok _ =>
          let mtreeName := stringsReplace1 meta.fromDescriptor.digest "sha256:" "sha256_"
          let mtreePath := filepathJoin bundlePath (mtreeName ++ ".mtree")
          let fullRootfsPath := filepathJoin bundlePath RootfsName
          let t4 := t3 ++ [Event.osOpen mtreePath]
          match env.osOpen with
          | .error e => ⟨.error (errorsWrap e "open mtree"), t4 ++ [Event.engineClose], st⟩
          | .ok _ =>
            let t5 := t4 ++ [Event.parseSpec]
            match env.parseSpec with
            | .error e => ⟨.error (errorsWrap e "parse mtree"), t5 ++ [Event.fileClose, Event.engineClose], st⟩
            | .ok _spec =>
              let fsEval := if meta.mapOptions.rootless then FsEval.rootless else FsEval.default
              let t6 := t5 ++ [Event.mtreeCheck fullRootfsPath MtreeKeywords fsEval]
              match env.mtreeCheck with
              | .error e => ⟨.error (errorsWrap e "check mtree"), t6 ++ [Event.fileClose, Event.engineClose], st⟩
              | .ok diffs =>
                let t7 := t6 ++ [Event.generateLayer fullRootfsPath diffs]
                match env.generateLayer with
                | .error e => ⟨.error (errorsWrap e "generate diff layer"), t7 ++ [Event.fileClose, Event.engineClose], st⟩
                | .ok _ =>
                  let t8 := t7 ++ [Event.mutatorMeta]
                  match env.mutatorMeta with
                  | .error e => ⟨.error (errorsWrap e "get image metadata"), t8 ++ [Event.readerClose, Event.fileClose, Event.engineClose], st⟩
                  | .ok imageMeta =>
                    let history : History :=
                      { author := ctx.historyAuthor.getD imageMeta.author,
                        comment := ctx.historyComment.getD "",
                        created := ctx.historyCreated.getD ctx.now,
                        createdBy := ctx.historyCreatedBy.getD "umoci config",
                        emptyLayer := false }
                    let t9 := t8 ++ [Event.mutatorAdd history]
                    match env.mutatorAdd with
                    | .error e => ⟨.error (errorsWrap e "add diff layer"), t9 ++ [Event.readerClose, Event.fileClose, Event.engineClose], st⟩
                    | .ok _ =>
                      let t10 := t9 ++ [Event.mutatorCommit]
                      match env.mutatorCommit with
                      | .error e => ⟨.error (errorsWrap e "commit mutated image"), t10 ++ [Event.readerClose, Event.fileClose, Event.engineClose], st⟩
                      | .ok newDescriptor =>
                        let st1 : Store := { st with blobs := newDescriptor.digest :: st.blobs }
                        let t11 := t10 ++ [Event.deleteReference tagName]
                        match env.deleteReference with
                        | .error e => ⟨.error e, t11 ++ [Event.readerClose, Event.fileClose, Event.engineClose], st1⟩
                        | .ok _ =>
                          let st2 : Store := { st1 with refs := fun n => if n = tagName then none else st1.refs n }
                          let t12 := t11 ++ [Event.putReference tagName newDescriptor]
                          match env.putReference with
                          | .error e => ⟨.error e, t12 ++ [Event.readerClose, Event.fileClose, Event.engineClose], st2⟩
                          | .ok _ =>
                            let st3 : Store := { st2 with refs := fun n => if n = tagName then some newDescriptor else st2.refs n }
                            ⟨.ok (), t12 ++ [Event.readerClose, Event.fileClose, Event.engineClose], st3⟩

/-- Abstract pipeline stage names, for stating the orchestration order. -/
inductive Stage
  | loadMeta
  | openStore
  | createMutator
  | openSnapshot
  | parseSnapshot
  | detectChanges
  | buildLayer
  | readImageMeta
  | addLayer
  | commit
  | deleteRef
  | putRef
deriving DecidableEq, Repr

/-- Maps a trace event to the pipeline stage it starts (deferred `Close`
events are not stages). -/
def stageOf : Event → Option Stage
  | .readBundleMeta => some .loadMeta
  | .casOpen _ => some .openStore
  | .mutateNew _ => some .createMutator
  | .osOpen _ => some .openSnapshot
  | .parseSpec => some .parseSnapshot
  | .mtreeCheck _ _ _ => some .detectChanges
  | .generateLayer _ _ => some .buildLayer
  | .mutatorMeta => some .readImageMeta
  | .mutatorAdd _ => some .addLayer
  | .mutatorCommit => some .commit
  | .deleteReference _ => some .deleteRef
  | .putReference _ _ => some .putRef
  | .engineClose => none
  | .fileClose => none
  | .readerClose => none

/-- The stage order of the success path of `repack`. -/
def successOrder : List Stage :=
  [.loadMeta, .openStore, .createMutator, .openSnapshot, .parseSnapshot,
   .detectChanges, .buildLayer, .readImageMeta, .addLayer, .commit,
   .deleteRef, .putRef]

/-- Recognises the two tag-reference store operations. -/
def isRefOp : Event → Bool
  | .deleteReference _ => true
  | .putReference _ _ => true
  | _ => false

/-- Recognises a `mutator.Add` call attempt. -/
def isAddEvent : Event → Bool
  | .mutatorAdd _ => true
  | _ => false

/-- Holds when some stage up to and including `mutator.Commit` fails:
reading bundle metadata, the media-type validation, opening the CAS,
creating the mutator, opening or parsing the mtree snapshot, change
detection, layer generation, reading image metadata, `Add`, or
`Commit`. -/
def earlyStageFails (env : Env) : Prop :=
  isFailure env.readBundleMeta = true ∨
  (∃ meta, env.readBundleMeta = .ok meta ∧ meta.fromDescriptor.mediaType ≠ MediaTypeImageManifest) ∨
  isFailure env.casOpen = true ∨
  isFailure env.mutateNew = true ∨
  isFailure env.osOpen = true ∨
  isFailure env.parseSpec = true ∨
  isFailure env.mtreeCheck = true ∨
  isFailure env.generateLayer = true ∨
  isFailure env.mutatorMeta = true ∨
  isFailure env.mutatorAdd = true ∨
  isFailure env.mutatorCommit = true

/-- Concrete single-platform base descriptor used by the witnesses. -/
def d0 : Descriptor :=
  { mediaType := MediaTypeImageManifest, digest := "sha256:aaaa", size := 7 }

/-- Concrete descriptor returned by a successful `Commit` in witnesses. -/
def dNew : Descriptor :=
  { mediaType := MediaTypeImageManifest, digest := "sha256:bbbb", size := 9 }

/-- Concrete bundle metadata used by the witnesses. -/
def meta0 : UmociMeta :=
  { version := "2",
    fromDescriptor := d0,
    mapOptions := { uidMappings := [], gidMappings := [], rootless := false } }

/-- Concrete CLI context used by the witnesses. -/
def ctx0 : Ctx :=
  { imagePath := "image",
    tagName := "latest",
    bundlePath := "bundle",
    historyAuthor := none,
    historyComment := none,
    historyCreated := none,
    historyCreatedBy := none,
    now := "2016-01-01T00:00:00Z" }

/-- Concrete all-successful oracle environment used by the witnesses. -/
def env0 : Env :=
  { readBundleMeta := .ok meta0,
    casOpen := .ok (),
    mutateNew := .ok (),
    osOpen := .ok (),
    parseSpec := .ok ⟨[]⟩,
    mtreeCheck := .ok [],
    generateLayer := .ok (),
    mutatorMeta := .ok ⟨"Aleksa"⟩,
    mutatorAdd := .ok (),
    mutatorCommit := .ok dNew,
    deleteReference := .ok (),
    putReference := .ok () }

/-- Concrete empty initial store used by the witnesses. -/
def st0 : Store := { blobs := [], refs := fun _ => none }

/-- C1: if any stage of repack up to and including `mutator.Commit` fails
(reading bundle metadata, media-type validation, opening the CAS, creating
the mutator, opening or parsing the mtree snapshot, change detection,
layer generation, reading image metadata, `Add`, or `Commit`), the
function returns an error, no `DeleteReference` or `PutReference` call is
ever made, and the tag-reference map is exactly what it was before the
repack started. -/
theorem repack_early_failure_preserves_reference
    (ctx : Ctx) (env : Env) (st : Store)
    (h : earlyStageFails env) :
    isFailure (repack ctx env st).result = true ∧
    (∀ t, Event.deleteReference t ∉ (repack ctx env st).trace) ∧
    (∀ t d, Event.putReference t d ∉ (repack ctx env st).trace) ∧
    (repack ctx env st).store.refs = st.refs := by
  obtain ⟨m, co, mn, oo, ps, mc, gl, mm, ma, mcm, dr, pr⟩ := env
  simp only [earlyStageFails] at h
  rcases m with e | meta
  · simp [repack, isFailure]
  by_cases hmt : meta.fromDescriptor.mediaType = MediaTypeImageManifest
  swap
  · simp [repack, isFailure, hmt]
  rcases co with e | u1
  · simp [repack, isFailure, hmt]
  rcases mn with e | u2
  · simp [repack, isFailure, hmt]
  rcases oo with e | u3
  · simp [repack, isFailure, hmt]
  rcases ps with e | sp
  · simp [repack, isFailure, hmt]
  rcases mc with e | diffs
  · simp [repack, isFailure, hmt]
  rcases gl with e | u4
  · simp [repack, isFailure, hmt]
  rcases mm with e | im
  · simp [repack, isFailure, hmt]
  rcases ma with e | u5
  · simp [repack, isFailure, hmt]
  rcases mcm with e | d
  · simp [repack, isFailure, hmt]
  simp [isFailure, hmt] at h

/-- Witness for C1: a repack whose `mutator.Add` fails returns an
error. -/
theorem repack_early_failure_preserves_reference_witness :
    isFailure (repack ctx0 { env0 with mutatorAdd := .error "boom" } st0).result = true :=
  (repack_early_failure_preserves_reference ctx0 { env0 with mutatorAdd := .error "boom" } st0
    (by simp [earlyStageFails, isFailure, env0])).1

/-- C2: when the saved `fromDescriptor` has a media type other than
`ispec.MediaTypeImageManifest`, repack returns the wrapped
unsupported-descriptor error with only the metadata read performed: the
trace is exactly `[readBundleMeta]` (so the CAS is never opened, no
mutator is created, and no mutation or reference change happens) and the
store is returned unchanged. -/
theorem repack_rejects_nonmanifest_media_type
    (ctx : Ctx) (env : Env) (st : Store) (meta : UmociMeta)
    (h1 : env.readBundleMeta = .ok meta)
    (h2 : meta.fromDescriptor.mediaType ≠ MediaTypeImageManifest) :
    (repack ctx env st).result =
      .error (errorsWrap ("descriptor does not point to ispec.MediaTypeImageManifest: not implemented: " ++ meta.fromDescriptor.mediaType) "invalid saved from descriptor") ∧
    (repack ctx env st).trace = [Event.readBundleMeta] ∧
    (repack ctx env st).store = st := by
  simp [repack, h1, h2]

/-- Witness for C2: a bundle whose saved descriptor is an image index is
rejected with nothing but the metadata read in the trace. -/
theorem repack_rejects_nonmanifest_media_type_witness :
    (repack ctx0 { env0 with readBundleMeta := .ok { meta0 with fromDescriptor := { d0 with mediaType := "application/vnd.oci.image.index.v1+json" } } } st0).trace = [Event.readBundleMeta] :=
  (repack_rejects_nonmanifest_media_type ctx0 _ st0
    { meta0 with fromDescriptor := { d0 with mediaType := "application/vnd.oci.image.index.v1+json" } }
    rfl (by decide)).2.1

/-- C3: on the success path the stages of repack run in exactly the order
load metadata, open CAS, create mutator, open snapshot, parse snapshot,
detect changes, build layer, read image metadata, `Add`, `Commit`, delete
reference, put reference — each exactly once. -/
theorem repack_success_stage_order (ctx : Ctx) (env : Env) (st : Store)
    (h : (repack ctx env st).result = .ok ()) :
    (repack ctx env st).trace.filterMap stageOf = successOrder := by
  obtain ⟨m, co, mn, oo, ps, mc, gl, mm, ma, mcm, dr, pr⟩ := env
  rcases m with e | meta
  · simp [repack] at h
  by_cases hmt : meta.fromDescriptor.mediaType = MediaTypeImageManifest
  swap
  · simp [repack, hmt] at h
  rcases co with e | u1
  · simp [repack, hmt] at h
  rcases mn with e | u2
  · simp [repack, hmt] at h
  rcases oo with e | u3
  · simp [repack, hmt] at h
  rcases ps with e | sp
  · simp [repack, hmt] at h
  rcases mc with e | diffs
  · simp [repack, hmt] at h
  rcases gl with e | u4
  · simp [repack, hmt] at h
  rcases mm with e | im
  · simp [repack, hmt] at h
  rcases ma with e | u5
  · simp [repack, hmt] at h
  rcases mcm with e | d
  · simp [repack, hmt] at h
  rcases dr with e | u6
  · simp [repack, hmt] at h
  rcases pr with e | u7
  · simp [repack, hmt] at h
  simp [repack, hmt, stageOf, successOrder]

/-- Witness for C3: the all-successful run performs the twelve stages in
the success order. -/
theorem repack_success_stage_order_witness :
    (repack ctx0 env0 st0).trace.filterMap stageOf = successOrder :=
  repack_success_stage_order ctx0 env0 st0 rfl

/-- C4: after a successful `Commit` the tag swap is exactly
`DeleteReference` followed (only when the delete succeeded) by
`PutReference`; a failure between the two steps leaves the tag absent
while the newly committed manifest stays addressable by digest, and when
both succeed the tag points at the new descriptor. -/
theorem repack_tag_swap_two_step
    (ctx : Ctx) (env : Env) (st : Store) (meta : UmociMeta) (sp : MtreeSpec)
    (diffs : List DiffEntry) (im : ImageMeta) (d : Descriptor)
    (h1 : env.readBundleMeta = .ok meta)
    (h2 : meta.fromDescriptor.mediaType = MediaTypeImageManifest)
    (h3 : env.casOpen = .ok ())
    (h4 : env.mutateNew = .ok ())
    (h5 : env.osOpen = .ok ())
    (h6 : env.parseSpec = .ok sp)
    (h7 : env.mtreeCheck = .ok diffs)
    (h8 : env.generateLayer = .ok ())
    (h9 : env.mutatorMeta = .ok im)
    (h10 : env.mutatorAdd = .ok ())
    (h11 : env.mutatorCommit = .ok d) :
    ((repack ctx env st).trace.filter isRefOp =
      match env.deleteReference with
      | .error _ => [Event.deleteReference ctx.tagName]
      | .ok _ => [Event.deleteReference ctx.tagName, Event.putReference ctx.tagName d]) ∧
    (match env.deleteReference, env.putReference with
     | .error e, _ =>
         (repack ctx env st).result = .error e ∧ (repack ctx env st).store.refs = st.refs
     | .ok _, .error e =>
         (repack ctx env st).result = .error e ∧
         (repack ctx env st).store.refs ctx.tagName = none ∧
         d.digest ∈ (repack ctx env st).store.blobs
     | .ok _, .ok _ =>
         (repack ctx env st).result = .ok () ∧
         (repack ctx env st).store.refs ctx.tagName = some d) := by
  obtain ⟨m, co, mn, oo, ps, mc, gl, mm, ma, mcm, dr, pr⟩ := env
  subst h1 h3 h4 h5 h6 h7 h8 h9 h10 h11
  rcases dr with e | u1
  · simp [repack, h2, isRefOp]
  rcases pr with e | u2
  · simp [repack, h2, isRefOp]
  simp [repack, h2, isRefOp]

/-- Witness for C4: with a successful delete but failing put, the tag is
left absent. -/
theorem repack_tag_swap_two_step_witness :
    (repack ctx0 { env0 with putReference := .error "putfail" } st0).store.refs "latest" = none :=
  (repack_tag_swap_two_step ctx0 { env0 with putReference := .error "putfail" } st0 meta0 ⟨[]⟩ [] ⟨"Aleksa"⟩ dNew
    rfl rfl rfl rfl rfl rfl rfl rfl rfl rfl rfl).2.2.1

/-- Helper for C5: `strings.Replace(d, "sha256:", "sha256_", 1)` on a
digest that starts with `"sha256:"` replaces exactly that prefix. -/
theorem stringsReplace1_sha256 (hex : String) :
    stringsReplace1 ("sha256:" ++ hex) "sha256:" "sha256_" = "sha256_" ++ hex := by
  obtain ⟨l⟩ := hex
  show String.mk (replaceFirstAux "sha256:".data "sha256_".data ("sha256:".data ++ l)) =
    String.mk ("sha256_".data ++ l)
  have hd : "sha256:".data = ['s', 'h', 'a', '2', '5', '6', ':'] := rfl
  have hd2 : "sha256_".data = ['s', 'h', 'a', '2', '5', '6', '_'] := rfl
  rw [hd, hd2]
  simp +decide [replaceFirstAux, List.isPrefixOf]

/-- Counterexample for C5 as stated: the claim says the snapshot path is
obtained from digest `<alg>:<hex>` by replacing the colon with an
underscore, but `repack` only replaces the literal substring `"sha256:"`;
for the digest `"sha512:abcd"` the file actually opened is
`bundle/sha512:abcd.mtree`, not `bundle/sha512_abcd.mtree`. -/
theorem repack_mtree_path_counterexample :
    Event.osOpen "bundle/sha512:abcd.mtree" ∈
      (repack ctx0 { env0 with readBundleMeta := .ok { meta0 with fromDescriptor := { d0 with digest := "sha512:abcd" } } } st0).trace ∧
    Event.osOpen "bundle/sha512_abcd.mtree" ∉
      (repack ctx0 { env0 with readBundleMeta := .ok { meta0 with fromDescriptor := { d0 with digest := "sha512:abcd" } } } st0).trace := by
  decide

/-- C5 (amended): for every base descriptor whose digest has the form
`"sha256:" ++ hex`, the snapshot file opened by repack is
`<bundle>/sha256_<hex>.mtree`; for other digest algorithms the colon is
left unchanged (the code replaces only the literal `"sha256:"`). -/
theorem repack_mtree_path_sha256
    (ctx : Ctx) (env : Env) (st : Store) (meta : UmociMeta) (hex : String)
    (h1 : env.readBundleMeta = .ok meta)
    (h2 : meta.fromDescriptor.mediaType = MediaTypeImageManifest)
    (h3 : meta.fromDescriptor.digest = "sha256:" ++ hex)
    (h4 : env.casOpen = .ok ())
    (h5 : env.mutateNew = .ok ()) :
    Event.osOpen (filepathJoin ctx.bundlePath ("sha256_" ++ hex ++ ".mtree")) ∈
      (repack ctx env st).trace := by
  obtain ⟨m, co, mn, oo, ps, mc, gl, mm, ma, mcm, dr, pr⟩ := env
  subst h1 h4 h5
  rcases oo with e | u3
  · simp [repack, h2, h3, stringsReplace1_sha256]
  rcases ps with e | sp
  · simp [repack, h2, h3, stringsReplace1_sha256]
  rcases mc with e | diffs
  · simp [repack, h2, h3, stringsReplace1_sha256]
  rcases gl with e | u4
  · simp [repack, h2, h3, stringsReplace1_sha256]
  rcases mm with e | im
  · simp [repack, h2, h3, stringsReplace1_sha256]
  rcases ma with e | u5
  · simp [repack, h2, h3, stringsReplace1_sha256]
  rcases mcm with e | d
  · simp [repack, h2, h3, stringsReplace1_sha256]
  rcases dr with e | u6
  · simp [repack, h2, h3, stringsReplace1_sha256]
  rcases pr with e | u7
  · simp [repack, h2, h3, stringsReplace1_sha256]
  simp [repack, h2, h3, stringsReplace1_sha256]

/-- Witness for C5 (amended): with digest `sha256:aaaa` the opened
snapshot is `bundle/sha256_aaaa.mtree`. -/
theorem repack_mtree_path_sha256_witness :
    Event.osOpen (filepathJoin ctx0.bundlePath ("sha256_" ++ "aaaa" ++ ".mtree")) ∈
      (repack ctx0 env0 st0).trace :=
  repack_mtree_path_sha256 ctx0 env0 st0 meta0 "aaaa" rfl rfl rfl rfl rfl

/-- C6: the evaluator passed to `mtree.Check` is selected solely by the
rootless flag of the bundle metadata (`RootlessFsEval` when rootless,
`DefaultFsEval` otherwise), and the keyword set passed is the fixed
`MtreeKeywords` in both modes. -/
theorem repack_fs_eval_selection
    (ctx : Ctx) (env : Env) (st : Store) (meta : UmociMeta) (sp : MtreeSpec)
    (h1 : env.readBundleMeta = .ok meta)
    (h2 : meta.fromDescriptor.mediaType = MediaTypeImageManifest)
    (h3 : env.casOpen = .ok ())
    (h4 : env.mutateNew = .ok ())
    (h5 : env.osOpen = .ok ())
    (h6 : env.parseSpec = .ok sp) :
    Event.mtreeCheck (filepathJoin ctx.bundlePath RootfsName) MtreeKeywords
        (if meta.mapOptions.rootless then FsEval.rootless else FsEval.default)
      ∈ (repack ctx env st).trace ∧
    (∀ p kw fe, Event.mtreeCheck p kw fe ∈ (repack ctx env st).trace → kw = MtreeKeywords) := by
  obtain ⟨m, co, mn, oo, ps, mc, gl, mm, ma, mcm, dr, pr⟩ := env
  subst h1 h3 h4 h5 h6
  rcases mc with e | diffs
  · simp [repack, h2]
    exact fun p kw fe _ h _ => h
  rcases gl with e | u4
  · simp [repack, h2]
    exact fun p kw fe _ h _ => h
  rcases mm with e | im
  · simp [repack, h2]
    exact fun p kw fe _ h _ => h
  rcases ma with e | u5
  · simp [repack, h2]
    exact fun p kw fe _ h _ => h
  rcases mcm with e | d
  · simp [repack, h2]
    exact fun p kw fe _ h _ => h
  rcases dr with e | u6
  · simp [repack, h2]
    exact fun p kw fe _ h _ => h
  rcases pr with e | u7
  · simp [repack, h2]
    exact fun p kw fe _ h _ => h
  simp [repack, h2]
  exact fun p kw fe _ h _ => h

/-- Witness for C6: a rootless bundle makes repack pass the rootless
evaluator (with the same fixed keywords) to the tree comparison. -/
theorem repack_fs_eval_selection_witness :
    Event.mtreeCheck (filepathJoin ctx0.bundlePath RootfsName) MtreeKeywords FsEval.rootless ∈
      (repack ctx0 { env0 with readBundleMeta := .ok { meta0 with mapOptions := { uidMappings := [], gidMappings := [], rootless := true } } } st0).trace :=
  (repack_fs_eval_selection ctx0 _ st0
    { meta0 with mapOptions := { uidMappings := [], gidMappings := [], rootless := true } } ⟨[]⟩
    rfl rfl rfl rfl rfl rfl).1

/-- C7: the history record passed to `mutator.Add` takes each of author,
comment, created and created-by from its override key when present and
otherwise from its default (the image author, the empty string, the
current ISO-8601 time, and `"umoci config"` respectively), and its
empty-layer flag is `false` regardless of overrides or diff contents. -/
theorem repack_history_record
    (ctx : Ctx) (env : Env) (st : Store) (meta : UmociMeta) (sp : MtreeSpec)
    (diffs : List DiffEntry) (im : ImageMeta)
    (h1 : env.readBundleMeta = .ok meta)
    (h2 : meta.fromDescriptor.mediaType = MediaTypeImageManifest)
    (h3 : env.casOpen = .ok ())
    (h4 : env.mutateNew = .ok ())
    (h5 : env.osOpen = .ok ())
    (h6 : env.parseSpec = .ok sp)
    (h7 : env.mtreeCheck = .ok diffs)
    (h8 : env.generateLayer = .ok ())
    (h9 : env.mutatorMeta = .ok im) :
    ∀ h : History, Event.mutatorAdd h ∈ (repack ctx env st).trace ↔
      h = { author := ctx.historyAuthor.getD im.author,
            comment := ctx.historyComment.getD "",
            created := ctx.historyCreated.getD ctx.now,
            createdBy := ctx.historyCreatedBy.getD "umoci config",
            emptyLayer := false } := by
  obtain ⟨m, co, mn, oo, ps, mc, gl, mm, ma, mcm, dr, pr⟩ := env
  subst h1 h3 h4 h5 h6 h7 h8 h9
  intro h
  rcases ma with e | u5
  · simp [repack, h2]
  rcases mcm with e | d
  · simp [repack, h2]
  rcases dr with e | u6
  · simp [repack, h2]
  rcases pr with e | u7
  · simp [repack, h2]
  simp [repack, h2]

/-- Witness for C7: with an author override present, the history handed to
`Add` carries the override and the remaining defaults. -/
theorem repack_history_record_witness :
    Event.mutatorAdd
        { author := "Override", comment := "", created := "2016-01-01T00:00:00Z",
          createdBy := "umoci config", emptyLayer := false } ∈
      (repack { ctx0 with historyAuthor := some "Override" } env0 st0).trace :=
  (repack_history_record { ctx0 with historyAuthor := some "Override" } env0 st0 meta0 ⟨[]⟩ [] ⟨"Aleksa"⟩
    rfl rfl rfl rfl rfl rfl rfl rfl rfl _).mpr rfl

/-- Recognises a `layer.GenerateLayer` call attempt. -/
def isGenerateLayerEvent : Event → Bool
  | .generateLayer _ _ => true
  | _ => false

/-- Recognises a `mutator.Commit` call attempt. -/
def isCommitEvent : Event → Bool
  | .mutatorCommit => true
  | _ => false

/-- C9: repack never short-circuits on an empty diff: for every diff list
returned by the tree comparison, including the empty one, layer
generation, `Add` and `Commit` are each invoked exactly once. -/
theorem repack_appends_layer_even_on_empty_diff
    (ctx : Ctx) (env : Env) (st : Store) (meta : UmociMeta) (sp : MtreeSpec)
    (diffs : List DiffEntry) (im : ImageMeta)
    (h1 : env.readBundleMeta = .ok meta)
    (h2 : meta.fromDescriptor.mediaType = MediaTypeImageManifest)
    (h3 : env.casOpen = .ok ())
    (h4 : env.mutateNew = .ok ())
    (h5 : env.osOpen = .ok ())
    (h6 : env.parseSpec = .ok sp)
    (h7 : env.mtreeCheck = .ok diffs)
    (h8 : env.generateLayer = .ok ())
    (h9 : env.mutatorMeta = .ok im)
    (h10 : env.mutatorAdd = .ok ()) :
    Event.generateLayer (filepathJoin ctx.bundlePath RootfsName) diffs ∈ (repack ctx env st).trace ∧
    (repack ctx env st).trace.countP isGenerateLayerEvent = 1 ∧
    (repack ctx env st).trace.countP isAddEvent = 1 ∧
    (repack ctx env st).trace.countP isCommitEvent = 1 := by
  obtain ⟨m, co, mn, oo, ps, mc, gl, mm, ma, mcm, dr, pr⟩ := env
  subst h1 h3 h4 h5 h6 h7 h8 h9 h10
  rcases mcm with e | d
  · simp [repack, h2, isGenerateLayerEvent, isAddEvent, isCommitEvent]
  rcases dr with e | u6
  · simp [repack, h2, isGenerateLayerEvent, isAddEvent, isCommitEvent]
  rcases pr with e | u7
  · simp [repack, h2, isGenerateLayerEvent, isAddEvent, isCommitEvent]
  simp [repack, h2, isGenerateLayerEvent, isAddEvent, isCommitEvent]

/-- Witness for C9: a repack of an unchanged bundle (empty diff list)
still performs generate, `Add` and `Commit` once each. -/
theorem repack_appends_layer_even_on_empty_diff_witness :
    (repack ctx0 env0 st0).trace.countP isAddEvent = 1 :=
  (repack_appends_layer_even_on_empty_diff ctx0 env0 st0 meta0 ⟨[]⟩ [] ⟨"Aleksa"⟩
    rfl rfl rfl rfl rfl rfl rfl rfl rfl rfl).2.2.1

/-- Counterexample for C8 as stated: the claim says the reference-swap
stage also wraps its errors with stage context, but `repack` returns
`DeleteReference` and `PutReference` errors verbatim; with all earlier
stages succeeding and `DeleteReference` failing with `"boom"`, the
function returns exactly `"boom"`, which carries no `": "`-joined stage
context (it contains no colon at all). -/
theorem repack_swap_error_unwrapped_counterexample :
    (repack ctx0 { env0 with deleteReference := .error "boom" } st0).result = .error "boom" ∧
    ':' ∉ "boom".data := by
  constructor
  · rfl
  · decide

/-- C8 (amended): every failing stage up to and including `Commit` returns
the underlying error wrapped with its stage-context message, no stage
retries or suppresses an error, and the reference-swap stage
(`DeleteReference` and `PutReference`) propagates its errors unmodified,
without added stage context.  The equation fully characterises the
returned error of every run. -/
theorem repack_error_propagation (ctx : Ctx) (env : Env) (st : Store) :
    (repack ctx env st).result =
      match env.readBundleMeta with
      | .error e => .error (errorsWrap e "read umoci.json metadata")
      | .ok meta =>
        if meta.fromDescriptor.mediaType ≠ MediaTypeImageManifest then
          .error (errorsWrap ("descriptor does not point to ispec.MediaTypeImageManifest: not implemented: " ++ meta.fromDescriptor.mediaType) "invalid saved from descriptor")
        else match env.casOpen with
        | .error e => .error (errorsWrap e "open CAS")
        | .ok _ => match env.mutateNew with
          | .error e => .error (errorsWrap e "create mutator for base image")
          | .ok _ => match env.osOpen with
            | .error e => .error (errorsWrap e "open mtree")
            | .ok _ => match env.parseSpec with
              | .error e => .error (errorsWrap e "parse mtree")
              | .ok _ => match env.mtreeCheck with
                | .error e => .error (errorsWrap e "check mtree")
                | .ok _ => match env.generateLayer with
                  | .error e => .error (errorsWrap e "generate diff layer")
                  | .ok _ => match env.mutatorMeta with
                    | .error e => .error (errorsWrap e "get image metadata")
                    | .ok _ => match env.mutatorAdd with
                      | .error e => .error (errorsWrap e "add diff layer")
                      | .ok _ => match env.mutatorCommit with
                        | .error e => .error (errorsWrap e "commit mutated image")
                        | .ok _ => match env.deleteReference with
                          | .error e => .error e
                          | .ok _ => match env.putReference with
                            | .error e => .error e
                            | .ok _ => .ok () := by
  obtain ⟨m, co, mn, oo, ps, mc, gl, mm, ma, mcm, dr, pr⟩ := env
  rcases m with e | meta
  · simp [repack]
  by_cases hmt : meta.fromDescriptor.mediaType = MediaTypeImageManifest
  swap
  · simp [repack, hmt]
  rcases co with e | u1
  · simp [repack, hmt]
  rcases mn with e | u2
  · simp [repack, hmt]
  rcases oo with e | u3
  · simp [repack, hmt]
  rcases ps with e | sp
  · simp [repack, hmt]
  rcases mc with e | diffs
  · simp [repack, hmt]
  rcases gl with e | u4
  · simp [repack, hmt]
  rcases mm with e | im
  · simp [repack, hmt]
  rcases ma with e | u5
  · simp [repack, hmt]
  rcases mcm with e | d
  · simp [repack, hmt]
  rcases dr with e | u6
  · simp [repack, hmt]
  rcases pr with e | u7
  · simp [repack, hmt]
  simp [repack, hmt]

/-- C10: every resource repack opens is released on every return path:
when `cas.Open` is attempted and succeeds the engine is closed, when the
snapshot file open is attempted and succeeds the file is closed, and when
layer generation is attempted and succeeds the layer reader is closed. -/
theorem repack_releases_resources (ctx : Ctx) (env : Env) (st : Store) :
    ((∃ p, Event.casOpen p ∈ (repack ctx env st).trace) → env.casOpen = .ok () →
      Event.engineClose ∈ (repack ctx env st).trace) ∧
    ((∃ p, Event.osOpen p ∈ (repack ctx env st).trace) → env.osOpen = .ok () →
      Event.fileClose ∈ (repack ctx env st).trace) ∧
    ((∃ p ds, Event.generateLayer p ds ∈ (repack ctx env st).trace) → env.generateLayer = .ok () →
      Event.readerClose ∈ (repack ctx env st).trace) := by
  obtain ⟨m, co, mn, oo, ps, mc, gl, mm, ma, mcm, dr, pr⟩ := env
  rcases m with e | meta
  · simp [repack]
  by_cases hmt : meta.fromDescriptor.mediaType = MediaTypeImageManifest
  swap
  · simp [repack, hmt]
  rcases co with e | u1
  · simp [repack, hmt]
  rcases mn with e | u2
  · simp [repack, hmt]
  rcases oo with e | u3
  · simp [repack, hmt]
  rcases ps with e | sp
  · simp [repack, hmt]
  rcases mc with e | diffs
  · simp [repack, hmt]
  rcases gl with e | u4
  · simp [repack, hmt]
  rcases mm with e | im
  · simp [repack, hmt]
  rcases ma with e | u5
  · simp [repack, hmt]
  rcases mcm with e | d
  · simp [repack, hmt]
  rcases dr with e | u6
  · simp [repack, hmt]
  rcases pr with e | u7
  · simp [repack, hmt]
  simp [repack, hmt]

/-- Witness for C10: in the all-successful run the engine, the snapshot
file and the layer reader are all closed before return. -/
theorem repack_releases_resources_witness :
    Event.engineClose ∈ (repack ctx0 env0 st0).trace ∧
    Event.fileClose ∈ (repack ctx0 env0 st0).trace ∧
    Event.readerClose ∈ (repack ctx0 env0 st0).trace :=
  ⟨(repack_releases_resources ctx0 env0 st0).1 ⟨"image", by decide⟩ rfl,
   (repack_releases_resources ctx0 env0 st0).2.1 ⟨"bundle/sha256_aaaa.mtree", by decide⟩ rfl,
   (repack_releases_resources ctx0 env0 st0).2.2 ⟨"bundle/rootfs", [], by decide⟩ rfl⟩
